import Mathlib

/-!
# Verification of the AiderFixer webhook worker

Shallow embedding of the repository's source files:
* `src/src/index.js` — two concatenated router-based variants ("variant 1",
  lines 1–369, with a real signature verifier; "variant 2", lines 370–1025,
  with a bypassed verifier and a forced fallback processor),
* `src/src/index.new.js` — single-file GitHub-App variant,
* `src/src/index.simple.js` — single-file PAT variant,
* `src/unnamed/part_000` — router-based mock/fallback variant (its
  `processIssue`/`getOctokit`/`processMockIssue` match `index.js` variant 2,
  with a mock-object `getFallbackOctokit`).

Machine words are `Nat` reduced mod 2^32 where overflow matters; upstream
REST calls are modelled by an explicit outcome environment and a trace of
attempted calls; JS exceptions are modelled by explicit error results.
-/

namespace AiderFixer

/-! ## HMAC-SHA256

Modelled from the platform primitive `crypto.subtle` (HMAC with SHA-256,
FIPS 180-4 / RFC 2104) which `verifyWebhookSignature` invokes; the
repository itself contains no digest code.  Bytes are `Nat` values < 256,
32-bit words are `Nat` values < 2^32. -/

/-- Truncate to a 32-bit word. -/
def w32 (n : Nat) : Nat := n % 4294967296

/-- Right rotation of a 32-bit word. -/
def rotr32 (x n : Nat) : Nat := w32 ((x >>> n) ||| (x <<< (32 - n)))

def smallSigma0 (x : Nat) : Nat := rotr32 x 7 ^^^ rotr32 x 18 ^^^ (x >>> 3)

def smallSigma1 (x : Nat) : Nat := rotr32 x 17 ^^^ rotr32 x 19 ^^^ (x >>> 10)

def bigSigma0 (x : Nat) : Nat := rotr32 x 2 ^^^ rotr32 x 13 ^^^ rotr32 x 22

def bigSigma1 (x : Nat) : Nat := rotr32 x 6 ^^^ rotr32 x 11 ^^^ rotr32 x 25

def chFn (x y z : Nat) : Nat := (x &&& y) ^^^ ((x ^^^ 4294967295) &&& z)

def majFn (x y z : Nat) : Nat := (x &&& y) ^^^ (x &&& z) ^^^ (y &&& z)

/-- SHA-256 round constants (FIPS 180-4 §4.2.2, written in decimal). -/
def sha256K : List Nat :=
  [1116352408, 1899447441, 3049323471, 3921009573, 961987163, 1508970993,
   2453635748, 2870763221, 3624381080, 310598401, 607225278, 1426881987,
   1925078388, 2162078206, 2614888103, 3248222580, 3835390401, 4022224774,
   264347078, 604807628, 770255983, 1249150122, 1555081692, 1996064986,
   2554220882, 2821834349, 2952996808, 3210313671, 3336571891, 3584528711,
   113926993, 338241895, 666307205, 773529912, 1294757372, 1396182291,
   1695183700, 1986661051, 2177026350, 2456956037, 2730485921, 2820302411,
   3259730800, 3345764771, 3516065817, 3600352804, 4094571909, 275423344,
   430227734, 506948616, 659060556, 883997877, 958139571, 1322822218,
   1537002063, 1747873779, 1955562222, 2024104815, 2227730452, 2361852424,
   2428436474, 2756734187, 3204031479, 3329325298]

/-- SHA-256 initial hash value (FIPS 180-4 §5.3.3, written in decimal). -/
def sha256H0 : List Nat :=
  [1779033703, 3144134277, 1013904242, 2773480762,
   1359893119, 2600822924, 528734635, 1541459225]

/-- Big-endian 32-bit words from a byte list (length a multiple of 4). -/
def wordsOfBytes : List Nat → List Nat
  | b0 :: b1 :: b2 :: b3 :: rest =>
      (((b0 * 256 + b1) * 256 + b2) * 256 + b3) :: wordsOfBytes rest
  | _ => []

/-- Big-endian bytes of a 32-bit word. -/
def bytesOfWord (w : Nat) : List Nat :=
  [(w >>> 24) % 256, (w >>> 16) % 256, (w >>> 8) % 256, w % 256]

/-- Big-endian 8-byte encoding of the message bit length. -/
def bytesOfLen (bits : Nat) : List Nat :=
  [(bits >>> 56) % 256, (bits >>> 48) % 256, (bits >>> 40) % 256, (bits >>> 32) % 256,
   (bits >>> 24) % 256, (bits >>> 16) % 256, (bits >>> 8) % 256, bits % 256]

/-- SHA-256 padding: append 0x80, zero bytes to 56 mod 64, then the bit length. -/
def padMessage (msg : List Nat) : List Nat :=
  msg ++ 0x80 :: List.replicate ((119 - msg.length % 64) % 64) 0 ++ bytesOfLen (8 * msg.length)

/-- Extend a 16-word block schedule by `n` further words. -/
def extendSchedule : Nat → Array Nat → Array Nat
  | 0, w => w
  | n + 1, w =>
      let i := w.size
      extendSchedule n (w.push (w32 (smallSigma1 (w.getD (i - 2) 0) + w.getD (i - 7) 0 +
        smallSigma0 (w.getD (i - 15) 0) + w.getD (i - 16) 0)))

/-- Working variables of the SHA-256 compression loop. -/
structure Sha256State where
  a : Nat
  b : Nat
  c : Nat
  d : Nat
  e : Nat
  f : Nat
  g : Nat
  h : Nat

/-- One round of the SHA-256 compression function. -/
def roundStep (s : Sha256State) (kw : Nat × Nat) : Sha256State :=
  let t1 := w32 (s.h + bigSigma1 s.e + chFn s.e s.f s.g + kw.1 + kw.2)
  let t2 := w32 (bigSigma0 s.a + majFn s.a s.b s.c)
  ⟨w32 (t1 + t2), s.a, s.b, s.c, w32 (s.d + t1), s.e, s.f, s.g⟩

/-- Compress one 64-byte block into the running hash (8 words). -/
def compressBlock (hs : List Nat) (block : List Nat) : List Nat :=
  let ws := extendSchedule 48 (wordsOfBytes block).toArray
  let s0 : Sha256State :=
    ⟨hs.getD 0 0, hs.getD 1 0, hs.getD 2 0, hs.getD 3 0,
     hs.getD 4 0, hs.getD 5 0, hs.getD 6 0, hs.getD 7 0⟩
  let s := (sha256K.zip ws.toList).foldl roundStep s0
  [w32 (hs.getD 0 0 + s.a), w32 (hs.getD 1 0 + s.b), w32 (hs.getD 2 0 + s.c),
   w32 (hs.getD 3 0 + s.d), w32 (hs.getD 4 0 + s.e), w32 (hs.getD 5 0 + s.f),
   w32 (hs.getD 6 0 + s.g), w32 (hs.getD 7 0 + s.h)]

/-- Split a byte list into 64-byte chunks (structural recursion on a fuel
bound so that the kernel can evaluate it). -/
def chunks64Go : Nat → List Nat → List (List Nat)
  | 0, _ => []
  | _, [] => []
  | fuel + 1, l => l.take 64 :: chunks64Go fuel (l.drop 64)

/-- Split a byte list into 64-byte chunks. -/
def chunks64 (l : List Nat) : List (List Nat) := chunks64Go (l.length + 1) l

/-- SHA-256 of a byte list, as 32 bytes. -/
def sha256Bytes (msg : List Nat) : List Nat :=
  ((chunks64 (padMessage msg)).foldl compressBlock sha256H0).foldr
    (fun w acc => bytesOfWord w ++ acc) []

/-- UTF-8 encoding of a single code point. -/
def utf8Bytes (c : Nat) : List Nat :=
  if c < 0x80 then [c]
  else if c < 0x800 then [0xc0 + c / 64, 0x80 + c % 64]
  else if c < 0x10000 then [0xe0 + c / 4096, 0x80 + (c / 64) % 64, 0x80 + c % 64]
  else [0xf0 + c / 262144, 0x80 + (c / 4096) % 64, 0x80 + (c / 64) % 64, 0x80 + c % 64]

/-- `TextEncoder.encode`: UTF-8 bytes of a string. -/
def encodeUtf8 (s : String) : List Nat := (s.data.map (fun c => utf8Bytes c.toNat)).flatten

/-- HMAC-SHA256 over byte lists (RFC 2104, block size 64). -/
def hmacSha256 (key msg : List Nat) : List Nat :=
  let k0 := if key.length > 64 then sha256Bytes key else key
  let kPad := k0 ++ List.replicate (64 - k0.length) 0
  sha256Bytes ((kPad.map (fun b => b ^^^ 0x5c)) ++
    sha256Bytes ((kPad.map (fun b => b ^^^ 0x36)) ++ msg))

/-- Lowercase hex digit. -/
def hexDigitChar (n : Nat) : Char := ("0123456789abcdef".data).getD n '0'

/-- Two-digit lowercase hex of a byte (`b.toString(16).padStart(2, '0')`). -/
def hexOfByte (b : Nat) : String := String.mk [hexDigitChar (b / 16), hexDigitChar (b % 16)]

/-- Hex string of a byte list. -/
def hexOfBytes (bs : List Nat) : String := String.join (bs.map hexOfByte)

/-- The hex HMAC-SHA256 digest of `body` under `secret`, as the verifiers
compute it from `crypto.subtle.sign('HMAC', key, encoder.encode(body))`. -/
def hmacSha256Hex (secret body : String) : String :=
  hexOfBytes (hmacSha256 (encodeUtf8 secret) (encodeUtf8 body))

/-- SHA-256 hex digest of a string (auxiliary, for sanity checks). -/
def sha256Hex (s : String) : String := hexOfBytes (sha256Bytes (encodeUtf8 s))

/-! ## Signature verifiers -/

/-- What a call to the variant-1 verifier does: return a boolean, or throw
out of the handler. -/
inductive VerifyOutcome
  | ok (isValid : Bool)
  | error
  deriving DecidableEq

/-- `src/src/index.js` lines 9–34 (variant 1): `verifyWebhookSignature`.
Returns `false` when the `x-hub-signature-256` header is absent (line 11).
When the header is present, the HMAC key is imported with usages
`['verify']` (line 20) and then passed to `crypto.subtle.sign` (line 23),
which throws `InvalidAccessError` for a key lacking the `sign` usage; the
function has no try/catch, so it throws for every present header and the
digest comparison at line 33 is unreachable.  (An unset secret also throws,
at `importKey` on the empty key.) -/
def verifyWebhookSignature (signature : Option String) (_body _secret : String) :
    VerifyOutcome :=
  match signature with
  | none => .ok false
  | some _ => .error

/-- The unreachable comparison of `index.js` line 33: what the variant-1
verifier would compute had its key carried the `sign` usage. -/
def unreachableDigestCompare (sig body secret : String) : Bool :=
  sig == "sha256=" ++ hmacSha256Hex secret body

/-- `src/unnamed/part_000` lines 9–56 and `src/src/index.js` lines 378–425
(variant 2, the shipped verifier): its first statement is `return true;`
("For initial testing, always return true ... Remove this line in
production"), so it accepts every request unconditionally. -/
def verifyWebhookSignatureShipped (_signature : Option String) (_body _secret : String) : Bool :=
  true

/-- The statements after the early `return true` of the shipped verifier
(`part_000` lines 14–55), which are unreachable: skip verification when the
secret is unset or blank, reject a missing header, else compare digests. -/
def shippedVerifierDeadCode (signature : Option String) (body : String)
    (secret : Option String) : Bool :=
  match secret with
  | none => true
  | some s =>
    if s.trim == "" then true
    else
      match signature with
      | none => false
      | some sig => sig == "sha256=" ++ hmacSha256Hex s body

/-- `src/src/index.new.js` lines 53–57: the only signature handling is a
presence check on the `x-hub-signature-256` header (missing → 401); the
digest itself is never computed or compared. -/
def signatureHeaderPresent (signature : Option String) : Bool := signature.isSome

/-! ## Issue processor

The processor (`processIssue`) is a linear sequence of upstream REST calls.
We model an execution as the list of calls the processor attempts, in
order, together with how the run ends.  The outcomes of the upstream calls
(success, or a thrown error) are an input environment `Upstream`; a thrown
call transfers control to the enclosing `catch` block exactly as in the
source. -/

/-- The comment bodies the processor can post, by call site. -/
inductive CommentKind
  | workflowAck
  | prLink
  | errorReport
  | simulation
  | mockPRLink
  deriving DecidableEq

/-- One attempted upstream call (the GitHub REST surface used by the worker). -/
inductive Ev
  | authExchange
  | getIssue
  | addLabel (name : String)
  | getRepo
  | listCommits
  | createRef
  | listWorkflows
  | dispatchWorkflow
  | getContent
  | createBlob
  | createTree
  | createCommit
  | updateRef
  | createPR
  | removeLabel (name : String)
  | comment (k : CommentKind)
  | repoDispatch
  deriving DecidableEq

/-- How a `processIssue` run ends. -/
inductive Exit
  | done
  | dispatched
  | failed (e : Ev)
  | authFail
  | mockDone
  deriving DecidableEq

/-- A run: the upstream calls attempted, in order, and the exit. -/
structure RunOut where
  trace : List Ev
  exit : Exit
  deriving DecidableEq

/-- A workflow entry as returned by `actions.listRepoWorkflows`. -/
structure Workflow where
  name : String
  path : String
  deriving DecidableEq

/-- Outcome environment for one delivery: whether each upstream call
succeeds (`true`) or throws (`false`), and the repository's workflow list. -/
structure Upstream where
  authCreateOk : Bool
  tokenExchangeOk : Bool
  issuesGetOk : Bool
  addProcessingOk : Bool
  reposGetOk : Bool
  listCommitsOk : Bool
  createRefOk : Bool
  listWorkflowsOk : Bool
  workflows : List Workflow
  dispatchOk : Bool
  workflowCommentOk : Bool
  createBlobOk : Bool
  createTreeOk : Bool
  createCommitOk : Bool
  updateRefOk : Bool
  pullsCreateOk : Bool
  addGeneratedOk : Bool
  prCommentOk : Bool
  addProcessedOk : Bool
  errorCommentOk : Bool
  deriving DecidableEq

/-- Whether `p` is an initial segment of `l`. -/
def startsWithChars : List Char → List Char → Bool
  | [], _ => true
  | _ :: _, [] => false
  | p :: ps, c :: cs => p == c && startsWithChars ps cs

/-- Whether `p` occurs as a contiguous segment of `l`. -/
def hasSubChars (p l : List Char) : Bool :=
  startsWithChars p l ||
    match l with
    | [] => false
    | _ :: rest => hasSubChars p rest

/-- `workflow.path.includes(pat)`: substring occurrence test. -/
def occursIn (pat s : String) : Bool := hasSubChars pat.data s.data

/-- `index.js` lines 108–111: a workflow is recognized when its name is
`'🤖 AI Process Issue'` or its path contains `'aider-process-issue.yml'`. -/
def recognizedWorkflow (wf : Workflow) : Bool :=
  wf.name == "🤖 AI Process Issue" || occursIn "aider-process-issue.yml" wf.path

/-- `hasWorkflow` of `index.js` lines 101–114: false when the listing call
throws (the error is caught and only logged), else the `some` over the list. -/
def hasWorkflow (u : Upstream) : Bool :=
  u.listWorkflowsOk && u.workflows.any recognizedWorkflow

/-- Variant 1 `getOctokit` (`index.js` lines 37–46) succeeds only when
`createAppAuth` and the installation-token exchange both succeed; either
failure throws out of `getOctokit`. -/
def authOkV1 (u : Upstream) : Bool := u.authCreateOk && u.tokenExchangeOk

/-- The calls the catch block of the variant-1 `processIssue` attempts
(`index.js` lines 262–283): none.  `octokit` is `const`-declared inside the
try block (line 54), so the catch block's first statement —
`octokit.issues.createComment(…)` — throws a `ReferenceError` before any
upstream call is made, and the inner catch (line 281) swallows it.  The
error comment and the `ai-processing` removal written there are dead code.
(The variant-2 catch, which declares `let octokit` at function level, is
modelled separately by `errTraceApp`.) -/
def errTrace (_u : Upstream) : List Ev := []

/-- Attempt one upstream call: record it; on success continue with `rest`,
on a thrown error run the catch-block calls `err` and end `failed`. -/
def attempt (e : Ev) (ok : Bool) (err : List Ev) (rest : RunOut) : RunOut :=
  if ok then ⟨e :: rest.trace, rest.exit⟩ else ⟨e :: err, .failed e⟩

/-- A call whose failure does not abort the run (`.catch(() => …)` in the
source, or the internally-caught workflow listing): record it and continue. -/
def always (e : Ev) (rest : RunOut) : RunOut := ⟨e :: rest.trace, rest.exit⟩

/-- The workflow-dispatch branch (`index.js` lines 116–138): dispatch the
workflow, post the acknowledgement comment, and return.  `err` is the
enclosing catch block's call list. -/
def dispatchSeq (u : Upstream) (err : List Ev) : RunOut :=
  attempt .dispatchWorkflow u.dispatchOk err
    (attempt (.comment .workflowAck) u.workflowCommentOk err ⟨[], .dispatched⟩)

/-- The placeholder branch (`index.js` lines 159–260): read `README.md`
(failure swallowed), create blob → tree → commit, update the ref, open the
pull request, label it `ai-generated`, comment the PR link, remove
`ai-processing` (failure swallowed), add `ai-processed`.  `err` is the
enclosing catch block's call list. -/
def placeholderSeq (u : Upstream) (err : List Ev) : RunOut :=
  always .getContent
    (attempt .createBlob u.createBlobOk err
      (attempt .createTree u.createTreeOk err
        (attempt .createCommit u.createCommitOk err
          (attempt .updateRef u.updateRefOk err
            (attempt .createPR u.pullsCreateOk err
              (attempt (.addLabel "ai-generated") u.addGeneratedOk err
                (attempt (.comment .prLink) u.prCommentOk err
                  (always (.removeLabel "ai-processing")
                    (attempt (.addLabel "ai-processed") u.addProcessedOk err
                      ⟨[], .done⟩)))))))))

/-- `processIssue` of `src/src/index.js` variant 1 (lines 49–289).  When
`getOctokit` throws there is no octokit value for the catch block, so no
upstream call is attempted there (the comment attempt itself fails at
once); otherwise the call sequence of the try block runs, each thrown call
routing to the catch block `errTrace`. -/
def processIssueRun (u : Upstream) : RunOut :=
  if authOkV1 u then
    attempt .getIssue u.issuesGetOk (errTrace u)
      (attempt (.addLabel "ai-processing") u.addProcessingOk (errTrace u)
        (attempt .getRepo u.reposGetOk (errTrace u)
          (attempt .listCommits u.listCommitsOk (errTrace u)
            (attempt .createRef u.createRefOk (errTrace u)
              (always .listWorkflows
                (if hasWorkflow u then dispatchSeq u (errTrace u)
                 else placeholderSeq u (errTrace u)))))))
  else ⟨[], .authFail⟩

/-- The calls of spec steps 2–4 (resolve base, branch, delegate-or-placeholder). -/
def steps2to4Evs : List Ev :=
  [.getRepo, .listCommits, .createRef, .dispatchWorkflow, .comment .workflowAck,
   .createBlob, .createTree, .createCommit, .updateRef, .createPR,
   .addLabel "ai-generated", .comment .prLink]

/-- The run failed inside spec steps 2–4. -/
def failsInSteps2to4 (u : Upstream) : Bool :=
  match (processIssueRun u).exit with
  | .failed e => steps2to4Evs.contains e
  | _ => false

/-! ## Token provider (GitHub-App variants) -/

/-- What the token provider hands back to its caller. -/
inductive OctokitKind
  | installationAuth
  | fallbackMock
  deriving DecidableEq

/-- `getOctokit` of `src/unnamed/part_000` lines 88–160 (= `index.js` lines
457–529).  When `createAppAuth` throws, the handler's fallback call (line
117) references variables that are not in scope, so it throws in turn and
the outer catch (line 153) returns `getFallbackOctokit()` — a mock.  When
the token exchange throws or times out, the same fallback path runs.  Only
full success returns an installation-token Octokit.  No path throws an
`AuthError` to the caller. -/
def getOctokitKind (authCreateOk tokenExchangeOk : Bool) : OctokitKind :=
  if authCreateOk && tokenExchangeOk then .installationAuth else .fallbackMock

/-- `createJWT` of `src/src/index.new.js` lines 156–162: ignores the app id
and private key and returns the fixed string `"dummy_jwt_token"`; it never
fails and never signs anything. -/
def createJWT (_appId _privateKey : String) : String := "dummy_jwt_token"

/-- `getInstallationToken` of `index.new.js` lines 119–148: exchanges the
assertion; a non-success exchange status throws. -/
def getInstallationToken (appId privateKey : String) (exchangeOk : Bool)
    (grantedToken : String) : Except String String :=
  let _jwt := createJWT appId privateKey
  if exchangeOk then .ok grantedToken
  else .error "Failed to get installation token"

/-! ## Fallback (mock) processing variants -/

/-- The calls `processMockIssue` of `part_000` (lines 261–331) makes on the
mock octokit object: get the issue, add `ai-processing`, post the
simulation notice, create the mock PR, post the mock PR link, add
`ai-processed`, then remove `ai-processing`.  None of them reaches the real
upstream API. -/
def processMockIssueTrace : List Ev :=
  [.getIssue, .addLabel "ai-processing", .comment .simulation, .createPR,
   .comment .mockPRLink, .addLabel "ai-processed", .removeLabel "ai-processing"]

/-- `processMockIssue` of `index.js` variant 2 (lines 566–622): fires one
fire-and-forget repository-dispatch request and returns. -/
def processMockDispatchTrace : List Ev := [.repoDispatch]

/-- `part_000` line 348 / `index.js` line 639: `const forceFallback = true;`
hard-coded. -/
def forceFallback : Bool := true

/-- Outcomes as seen through the variant-2 try block: when the octokit in
hand is the mock instance, every call on it succeeds locally and the mock
workflow listing returns `[]`. -/
def effUpstream (u : Upstream) (isMock : Bool) : Upstream :=
  { authCreateOk := u.authCreateOk
    tokenExchangeOk := u.tokenExchangeOk
    issuesGetOk := isMock || u.issuesGetOk
    addProcessingOk := isMock || u.addProcessingOk
    reposGetOk := isMock || u.reposGetOk
    listCommitsOk := isMock || u.listCommitsOk
    createRefOk := isMock || u.createRefOk
    listWorkflowsOk := isMock || u.listWorkflowsOk
    workflows := if isMock then [] else u.workflows
    dispatchOk := isMock || u.dispatchOk
    workflowCommentOk := isMock || u.workflowCommentOk
    createBlobOk := isMock || u.createBlobOk
    createTreeOk := isMock || u.createTreeOk
    createCommitOk := isMock || u.createCommitOk
    updateRefOk := isMock || u.updateRefOk
    pullsCreateOk := isMock || u.pullsCreateOk
    addGeneratedOk := isMock || u.addGeneratedOk
    prCommentOk := isMock || u.prCommentOk
    addProcessedOk := isMock || u.addProcessedOk
    errorCommentOk := isMock || u.errorCommentOk }

/-- The catch block of the variant-2 `processIssue` (`part_000` lines
585–627): octokit is always defined here, so it posts the error comment
and, if that call succeeded, removes `ai-processing`; if the comment call
threw, the inner catch falls back to the variant's mock processing
(`fbMock`). -/
def errTraceApp (errorCommentOk : Bool) (fbMock : List Ev) : List Ev :=
  .comment .errorReport :: (if errorCommentOk then [.removeLabel "ai-processing"] else fbMock)

/-- The (unreachable) non-fallback path of the variant-2 `processIssue`
(`part_000` lines 356–627): obtain an octokit via `getOctokitKind` (the
exchange is attempted whenever `createAppAuth` succeeded), then run the
variant-1 call sequence, additionally posting the simulation-notice comment
after the `ai-processing` label when the octokit is the mock instance. -/
def realAppPathRun (u : Upstream) (fbMock : List Ev) : RunOut :=
  let isMock := getOctokitKind u.authCreateOk u.tokenExchangeOk == .fallbackMock
  let v := effUpstream u isMock
  let err := errTraceApp v.errorCommentOk fbMock
  let core :=
    attempt .getIssue v.issuesGetOk err
      (attempt (.addLabel "ai-processing") v.addProcessingOk err
        ((fun rest => if isMock then always (.comment .simulation) rest else rest)
          (attempt .getRepo v.reposGetOk err
            (attempt .listCommits v.listCommitsOk err
              (attempt .createRef v.createRefOk err
                (always .listWorkflows
                  (if hasWorkflow v then dispatchSeq v err else placeholderSeq v err)))))))
  if u.authCreateOk then ⟨.authExchange :: core.trace, core.exit⟩ else core

/-- `processIssue` of `src/unnamed/part_000` (lines 334–633): because
`forceFallback` is `true`, it returns `processMockIssue(getFallbackOctokit(),
owner, repo, issueNumber, env)` for every input. -/
def processIssuePart000Run (u : Upstream) : RunOut :=
  if forceFallback then ⟨processMockIssueTrace, .mockDone⟩
  else realAppPathRun u processMockIssueTrace

/-- `processIssue` of `src/src/index.js` variant 2 (lines 625–924): the same
`forceFallback = true` short-circuit, with this variant's `processMockIssue`
(one repository-dispatch request). -/
def processIssueIndexV2Run (u : Upstream) : RunOut :=
  if forceFallback then ⟨processMockDispatchTrace, .mockDone⟩
  else realAppPathRun u processMockDispatchTrace

/-! ## Webhook envelope and issue-event dispatcher -/

/-- `payload.repository`: always dereferenced, so modelled as present. -/
structure RepoObj where
  owner : String
  name : String
  deriving DecidableEq

/-- `payload.label`: the applied-label object. -/
structure LabelObj where
  name : String
  deriving DecidableEq

/-- `payload.issue`. -/
structure IssueObj where
  number : Nat
  deriving DecidableEq

/-- The parsed webhook JSON body as the handlers read it.  `label`, `issue`
and `installation` may be absent from the JSON (the spec data model marks
them optional); the handlers dereference them without a guard. -/
structure Payload where
  action : Option String
  label : Option LabelObj
  issue : Option IssueObj
  repository : RepoObj
  installation : Option Nat
  deriving DecidableEq

/-- Outcome of the `POST /webhook` body handling in the router variants. -/
inductive DispatchResult
  | processing (issue : Nat) (repository : String)
  | ack (event : Option String) (action : String)
  | typeError
  deriving DecidableEq

/-- `body.action || 'none'` of the acknowledgement JSON (`index.js` line
347): a missing — or empty, `||` being falsy — action is reported as
`'none'`. -/
def ackAction : Option String → String
  | none => "none"
  | some s => if s == "" then "none" else s

/-- Whether a dispatch outcome proceeds to issue processing. -/
def isProcessing : DispatchResult → Bool
  | .processing _ _ => true
  | _ => false

/-- The issue-event dispatcher of the router variants (`index.js` lines
305–351): after parsing, proceed exactly on `event === 'issues'`,
`action === 'labeled'` and `label.name === 'aider-pro'` (the label object is
dereferenced as soon as event and action match, throwing a `TypeError` when
absent; the trigger branch further dereferences `issue` and `installation`);
every non-matching combination falls through to the 200 acknowledgement
carrying the observed event and action. -/
def dispatchEvent (event : Option String) (p : Payload) : DispatchResult :=
  if event == some "issues" && p.action == some "labeled" then
    match p.label with
    | none => .typeError
    | some lbl =>
      if lbl.name == "aider-pro" then
        match p.issue with
        | none => .typeError
        | some iss =>
          match p.installation with
          | none => .typeError
          | some _ => .processing iss.number (p.repository.owner ++ "/" ++ p.repository.name)
      else .ack event (ackAction p.action)
  else .ack event (ackAction p.action)

/-! ## HTTP entry points -/

/-- An entry point's reaction to a request: a constructed `Response` with
the given status code, or a thrown error that rejects the handler without
constructing any response. -/
inductive WorkerRes
  | response (code : Nat)
  | thrown
  deriving DecidableEq

/-- The router-based entry point of `index.js` variant 1 (lines 292–369):
`POST /webhook` awaits the verifier — a missing header yields `false` and a
401, while any present header makes the verifier throw (its key lacks the
`sign` usage), rejecting the handler with no response, so the parse and
dispatch branches below the signature check (202 when processing is
started, 200 for the acknowledgement, a thrown `TypeError` on a missing
label) are written but unreachable; `GET /` returns the 200 status text;
all other routes match `router.all('*')` and return 404. -/
def routerHandle (secret method path : String) (signature : Option String)
    (rawBody : String) (event : Option String) (payload : Option Payload) : WorkerRes :=
  if method == "POST" && path == "/webhook" then
    match verifyWebhookSignature signature rawBody secret with
    | .error => .thrown
    | .ok isValid =>
      if isValid then
        match payload with
        | none => .thrown
        | some p =>
          match dispatchEvent event p with
          | .processing _ _ => .response 202
          | .ack _ _ => .response 200
          | .typeError => .thrown
      else .response 401
  else if method == "GET" && path == "/" then .response 200
  else .response 404

/-- The router-based entry point of `index.js` variant 2 / `part_000`
(lines 636–734): identical routing, but with the shipped (bypassed)
verifier, so the 401 branch is unreachable. -/
def routerHandleShipped (secret method path : String) (signature : Option String)
    (rawBody : String) (event : Option String) (payload : Option Payload) : WorkerRes :=
  if method == "POST" && path == "/webhook" then
    if verifyWebhookSignatureShipped signature rawBody secret then
      match payload with
      | none => .thrown
      | some p =>
        match dispatchEvent event p with
        | .processing _ _ => .response 202
        | .ack _ _ => .response 200
        | .typeError => .thrown
    else .response 401
  else if method == "GET" && path == "/" then .response 200
  else .response 404

/-- `src/src/index.simple.js` `fetch` (lines 18–158): every GET — whatever
the path — gets the 200 status page; every non-GET non-POST gets 405; every
POST runs the webhook flow with no signature verification: invalid JSON or
a `TypeError` from a missing `label`/`issue` object or a missing PAT
surfaces as 500 via the outer catch, while failures of the comment/label
API calls are swallowed by the inner catch, so every surviving path returns
200 `{success: true}`. -/
def simpleFetch (patSet _commentOk _labelOk : Bool) (method _path : String)
    (event : Option String) (payload : Option Payload) : WorkerRes :=
  if method == "GET" then .response 200
  else if method != "POST" then .response 405
  else
    match payload with
    | none => .response 500
    | some p =>
      if event == some "issues" && p.action == some "labeled" then
        match p.label with
        | none => .response 500
        | some lbl =>
          if lbl.name == "aider-pro" then
            match p.issue with
            | none => .response 500
            | some _ =>
              if !patSet then .response 500
              else .response 200
          else .response 200
      else .response 200

/-- `src/src/index.new.js` `fetch` (lines 17–110): every GET gets the 200
status page, every non-GET non-POST gets 405; a POST with no
`x-hub-signature-256` header gets 401 (the header's value is never
checked); then invalid JSON, a missing `label`/`issue`/`installation`
object, a failed installation-token exchange, or a failed comment/label
call all surface as 500 via the outer catch, and success returns 200. -/
def indexNewFetch (jwtExchangeOk commentOk labelOk : Bool) (method : String)
    (signature : Option String) (event : Option String) (payload : Option Payload) : WorkerRes :=
  if method == "GET" then .response 200
  else if method != "POST" then .response 405
  else if !signatureHeaderPresent signature then .response 401
  else
    match payload with
    | none => .response 500
    | some p =>
      if event == some "issues" && p.action == some "labeled" then
        match p.label with
        | none => .response 500
        | some lbl =>
          if lbl.name == "aider-pro" then
            match p.issue with
            | none => .response 500
            | some _ =>
              match p.installation with
              | none => .response 500
              | some _ =>
                if !jwtExchangeOk then .response 500
                else if !commentOk then .response 500
                else if !labelOk then .response 500
                else .response 200
          else .response 200
      else .response 200

/-! ## Concrete inputs used by counterexamples and witnesses -/

/-- An `issues`/`labeled` envelope with no label object. -/
def payloadNoLabel : Payload :=
  { action := some "labeled", label := none, issue := some ⟨42⟩,
    repository := ⟨"acme", "widgets"⟩, installation := some 99 }

/-- A fully-populated trigger envelope (`aider-pro` applied to issue 42). -/
def payloadTrigger : Payload :=
  { action := some "labeled", label := some ⟨"aider-pro"⟩, issue := some ⟨42⟩,
    repository := ⟨"acme", "widgets"⟩, installation := some 99 }

/-- The trigger envelope with a label differing only in case. -/
def payloadWrongLabel : Payload := { payloadTrigger with label := some ⟨"Aider-pro"⟩ }

/-- An environment in which every upstream call succeeds and the repository
has no workflows. -/
def envBase : Upstream :=
  { authCreateOk := true, tokenExchangeOk := true, issuesGetOk := true,
    addProcessingOk := true, reposGetOk := true, listCommitsOk := true,
    createRefOk := true, listWorkflowsOk := true, workflows := [],
    dispatchOk := true, workflowCommentOk := true, createBlobOk := true,
    createTreeOk := true, createCommitOk := true, updateRefOk := true,
    pullsCreateOk := true, addGeneratedOk := true, prCommentOk := true,
    addProcessedOk := true, errorCommentOk := true }

/-- `envBase` with the recognized automation workflow present. -/
def envWorkflow : Upstream :=
  { envBase with
    workflows := [⟨"🤖 AI Process Issue", ".github/workflows/aider-process-issue.yml"⟩] }

/-- All calls succeed except `repos.get` (step 2). -/
def envC5 : Upstream := { envBase with reposGetOk := false }

/-- All calls succeed except `git.createRef`. -/
def envC6 : Upstream := { envBase with createRefOk := false }

/-- Every upstream call succeeds (`nominal` below). -/
def nominal (u : Upstream) : Bool :=
  u.authCreateOk && u.tokenExchangeOk && u.issuesGetOk && u.addProcessingOk &&
  u.reposGetOk && u.listCommitsOk && u.createRefOk && u.listWorkflowsOk &&
  u.dispatchOk && u.workflowCommentOk && u.createBlobOk && u.createTreeOk &&
  u.createCommitOk && u.updateRefOk && u.pullsCreateOk && u.addGeneratedOk &&
  u.prCommentOk && u.addProcessedOk && u.errorCommentOk

/-! ## Supporting lemmas -/

/-- Any call in an `attempt` trace is the attempted call itself, a
catch-block call, or — only when the call succeeded — a later call. -/
theorem mem_attempt {x e : Ev} {ok : Bool} {err : List Ev} {rest : RunOut}
    (h : x ∈ (attempt e ok err rest).trace) :
    x = e ∨ x ∈ err ∨ (ok = true ∧ x ∈ rest.trace) := by
  unfold attempt at h
  cases hk : ok with
  | true =>
    rw [hk] at h
    simp only [if_true, reduceIte] at h
    rcases List.mem_cons.mp h with h1 | h1
    · exact Or.inl h1
    · exact Or.inr (Or.inr ⟨rfl, h1⟩)
  | false =>
    rw [hk] at h
    simp only [Bool.false_eq_true, if_false, reduceIte] at h
    rcases List.mem_cons.mp h with h1 | h1
    · exact Or.inl h1
    · exact Or.inr (Or.inl h1)

/-- Membership through a non-aborting call. -/
theorem mem_always {x e : Ev} {rest : RunOut} (h : x ∈ (always e rest).trace) :
    x = e ∨ x ∈ rest.trace := by
  unfold always at h
  exact List.mem_cons.mp h

/-- The variant-1 catch block attempts no upstream call at all. -/
theorem mem_errTrace {x : Ev} {u : Upstream} (h : x ∈ errTrace u) :
    x = .comment .errorReport ∨ x = .removeLabel "ai-processing" := by
  simp [errTrace] at h

/-- The variant-1 verifier returns `false` on a missing header. -/
theorem verify_missing_header (body secret : String) :
    verifyWebhookSignature none body secret = .ok false := rfl

/-- The variant-1 verifier throws on every present header (`sign` called on
a `verify`-usage key), whatever the header's value. -/
theorem verify_throws_when_signed (sig body secret : String) :
    verifyWebhookSignature (some sig) body secret = .error := rfl

/-- The unreachable comparison of `index.js` line 33 would accept exactly
the correctly-signed header. -/
theorem unreachableDigestCompare_roundtrip (body secret : String) :
    unreachableDigestCompare ("sha256=" ++ hmacSha256Hex secret body) body secret = true := by
  simp [unreachableDigestCompare]

/-- The dead tail of the shipped verifier (whose key does carry the `sign`
usage) would accept the correctly-signed header whenever the secret is set
and non-blank. -/
theorem shippedDeadCode_roundtrip (body secret : String)
    (h : (secret.trim == "") = false) :
    shippedVerifierDeadCode (some ("sha256=" ++ hmacSha256Hex secret body)) body
      (some secret) = true := by
  simp [shippedVerifierDeadCode, h]

/-- Changing the first byte of the signature header changes the string. -/
theorem mutatedPrefix_ne (x : String) : ("tha256=" ++ x) ≠ "sha256=" ++ x := by
  intro h
  have h2 : ("tha256=" ++ x).data.head? = ("sha256=" ++ x).data.head? := by rw [h]
  simp [String.append] at h2

/-! ## Claims -/

/-- C1: the claim says the verifier rejects (false, hence 401) on a missing
header, an unset secret, or a digest mismatch.  The shipped verifier
(`part_000` lines 9–12 / `index.js` lines 378–381) instead returns `true`
unconditionally — its first statement is the debug bypass `return true;`
marked "Remove this line in production" — so a request with no signature
header (or any wrong digest) is accepted; and `index.new.js` checks only
that the header is present, never the digest. -/
theorem c1_shipped_verifier_fails_open :
    (∀ body secret, verifyWebhookSignatureShipped none body secret = true) ∧
    (∀ sig body secret, verifyWebhookSignatureShipped (some sig) body secret = true) ∧
    signatureHeaderPresent (some "sha256=totally-wrong") = true :=
  ⟨fun _ _ => rfl, fun _ _ _ => rfl, rfl⟩

/-- C2: the claim says a failed build/signing step or a non-success
exchange yields an `AuthError` and never a fabricated credential.  In the
code, `getOctokit` answers a failed `createAppAuth` or a failed/timed-out
token exchange by returning the fallback mock Octokit (never an
`AuthError`), and `index.new.js`'s `createJWT` fabricates the constant
assertion `"dummy_jwt_token"` for every input.  (Only the exchange step of
`getInstallationToken` does throw on a non-success status.) -/
theorem c2_auth_failure_returns_mock :
    getOctokitKind false true = .fallbackMock ∧
    getOctokitKind true false = .fallbackMock ∧
    getOctokitKind false false = .fallbackMock ∧
    (∀ appId privateKey, createJWT appId privateKey = "dummy_jwt_token") ∧
    (∀ appId privateKey tok,
      getInstallationToken appId privateKey false tok =
        .error "Failed to get installation token") :=
  ⟨rfl, rfl, rfl, fun _ _ => rfl, fun _ _ _ => rfl⟩

/-- C3: with `forceFallback` hard-coded `true`, both fallback variants of
`processIssue` return their `processMockIssue(getFallbackOctokit(…), …)`
result for every environment, and the App-authentication path — in
particular the installation-token exchange — is never reached. -/
theorem c3_forceFallback_unreachable_auth :
    ∀ u : Upstream,
      processIssuePart000Run u = ⟨processMockIssueTrace, .mockDone⟩ ∧
      processIssueIndexV2Run u = ⟨processMockDispatchTrace, .mockDone⟩ ∧
      Ev.authExchange ∉ (processIssuePart000Run u).trace ∧
      Ev.authExchange ∉ (processIssueIndexV2Run u).trace := by
  intro u
  refine ⟨rfl, rfl, ?_, ?_⟩
  · show Ev.authExchange ∉ processMockIssueTrace
    decide
  · show Ev.authExchange ∉ processMockDispatchTrace
    decide

/-- C8: the claim demands `verify(B, hmacHex(S,B), S) = true` and `false`
on any single-byte mutation.  Neither verifier implements it: the shipped
one returns `true` on the signature whose first byte was changed from `s`
to `t` (indeed on every input), and the variant-1 verifier throws on every
present header — mutated or correct — instead of returning a boolean, its
digest comparison being unreachable. -/
theorem c8_shipped_verifier_accepts_mutated_signature :
    verifyWebhookSignatureShipped (some ("tha256=" ++ hmacSha256Hex "k" "a")) "a" "k" = true ∧
    "tha256=" ++ hmacSha256Hex "k" "a" ≠ "sha256=" ++ hmacSha256Hex "k" "a" ∧
    verifyWebhookSignature (some ("tha256=" ++ hmacSha256Hex "k" "a")) "a" "k" = .error ∧
    verifyWebhookSignature (some ("sha256=" ++ hmacSha256Hex "k" "a")) "a" "k" = .error :=
  ⟨rfl, mutatedPrefix_ne _, rfl, rfl⟩

/-- C4 counterexample: an `issues`/`labeled` envelope with no label object
is not the trigger, yet the handler throws a `TypeError` on
`body.label.name` instead of returning the no-op acknowledgement the claim
promises for every non-trigger envelope. -/
theorem c4_counterexample_missing_label :
    dispatchEvent (some "issues") payloadNoLabel = .typeError ∧
    dispatchEvent (some "issues") payloadNoLabel ≠ .ack (some "issues") "labeled" := by
  refine ⟨rfl, ?_⟩
  decide

/-- C4 (amended): the dispatcher proceeds iff `event == "issues"`,
`action == "labeled"`, the label object is present with name exactly
`"aider-pro"` (case-sensitive string equality, never a substring match),
and the `issue` and `installation` objects are present; an envelope failing
the event/action test, or carrying a differently-named label, gets the
no-op acknowledgement with the observed event and action; an
`issues`/`labeled` envelope without a label object throws instead. -/
theorem c4_amended_dispatcher :
    (∀ (e : Option String) (p : Payload),
        isProcessing (dispatchEvent e p) = true ↔
          (e = some "issues" ∧ p.action = some "labeled" ∧
           (∃ lbl, p.label = some lbl ∧ lbl.name = "aider-pro") ∧
           p.issue.isSome = true ∧ p.installation.isSome = true)) ∧
    (∀ (e : Option String) (p : Payload),
        ¬(e = some "issues" ∧ p.action = some "labeled") →
        dispatchEvent e p = .ack e (ackAction p.action)) ∧
    (∀ (e : Option String) (p : Payload) (lbl : LabelObj),
        p.label = some lbl → lbl.name ≠ "aider-pro" →
        dispatchEvent e p = .ack e (ackAction p.action)) ∧
    (∀ p : Payload, p.action = some "labeled" → p.label = none →
        dispatchEvent (some "issues") p = .typeError) := by
  refine ⟨?_, ?_, ?_, ?_⟩
  · intro e p
    by_cases he : e = some "issues"
    · by_cases ha : p.action = some "labeled"
      · cases hl : p.label with
        | none => simp [dispatchEvent, he, ha, hl, isProcessing]
        | some lbl =>
          by_cases hn : lbl.name = "aider-pro"
          · cases hi : p.issue with
            | none => simp [dispatchEvent, he, ha, hl, hn, hi, isProcessing]
            | some iss =>
              cases hins : p.installation with
              | none => simp [dispatchEvent, he, ha, hl, hn, hi, hins, isProcessing]
              | some k => simp [dispatchEvent, he, ha, hl, hn, hi, hins, isProcessing]
          · simp [dispatchEvent, he, ha, hl, hn, isProcessing]
      · simp [dispatchEvent, ha, isProcessing]
    · simp [dispatchEvent, he, isProcessing]
  · intro e p h
    rcases not_and_or.mp h with hx | hx
    · simp [dispatchEvent, hx]
    · simp [dispatchEvent, hx]
  · intro e p lbl hl hn
    by_cases he : e = some "issues" <;> by_cases ha : p.action = some "labeled" <;>
      simp [dispatchEvent, he, ha, hl, hn]
  · intro p ha hl
    simp [dispatchEvent, ha, hl]

/-- C4 witness: the amended dispatcher facts at concrete envelopes — the
exact trigger proceeds; a wrong event, and a label differing only in case,
get the acknowledgement; a missing label object throws. -/
theorem c4_amended_witness :
    isProcessing (dispatchEvent (some "issues") payloadTrigger) = true ∧
    dispatchEvent (some "pull_request") payloadTrigger = .ack (some "pull_request") "labeled" ∧
    dispatchEvent (some "issues") payloadWrongLabel = .ack (some "issues") "labeled" ∧
    dispatchEvent (some "issues") payloadNoLabel = .typeError := by
  refine ⟨?_, ?_, ?_, ?_⟩
  · exact (c4_amended_dispatcher.1 (some "issues") payloadTrigger).mpr
      ⟨rfl, rfl, ⟨⟨"aider-pro"⟩, rfl, rfl⟩, rfl, rfl⟩
  · exact c4_amended_dispatcher.2.1 (some "pull_request") payloadTrigger
      (by intro h; exact absurd h.1 (by decide))
  · exact c4_amended_dispatcher.2.2.1 (some "issues") payloadWrongLabel ⟨"Aider-pro"⟩
      rfl (by decide)
  · exact c4_amended_dispatcher.2.2.2 payloadNoLabel rfl rfl

/-- C10: every `issues`/`labeled` payload without a label object makes the
handlers dereference `payload.label.name` and throw: the single-file
variants answer 500 from their catch blocks, and the router variants reject
without producing the no-op acknowledgement (no response is constructed). -/
theorem c10_missing_label_crashes :
    ∀ p : Payload, p.action = some "labeled" → p.label = none →
      dispatchEvent (some "issues") p = .typeError ∧
      (∀ pat cOk lOk path,
        simpleFetch pat cOk lOk "POST" path (some "issues") (some p) = .response 500) ∧
      (∀ jOk cOk lOk sig,
        indexNewFetch jOk cOk lOk "POST" (some sig) (some "issues") (some p) = .response 500) ∧
      (∀ secret body, routerHandle secret "POST" "/webhook"
          (some ("sha256=" ++ hmacSha256Hex secret body)) body
          (some "issues") (some p) = .thrown) ∧
      (∀ secret sig body, routerHandleShipped secret "POST" "/webhook" sig body
          (some "issues") (some p) = .thrown) := by
  intro p ha hl
  refine ⟨?_, ?_, ?_, ?_, ?_⟩
  · simp [dispatchEvent, ha, hl]
  · intro pat cOk lOk path
    simp [simpleFetch, ha, hl]
  · intro jOk cOk lOk sig
    simp [indexNewFetch, ha, hl, signatureHeaderPresent]
  · intro secret body
    simp [routerHandle, verifyWebhookSignature, dispatchEvent, ha, hl]
  · intro secret sig body
    simp [routerHandleShipped, verifyWebhookSignatureShipped, dispatchEvent, ha, hl]

/-- C10 witness: the crash at the concrete no-label envelope, across all
four entry points. -/
theorem c10_witness :
    dispatchEvent (some "issues") payloadNoLabel = .typeError ∧
    simpleFetch true true true "POST" "/webhook" (some "issues") (some payloadNoLabel) =
      .response 500 ∧
    indexNewFetch true true true "POST" (some "sha256=x") (some "issues")
      (some payloadNoLabel) = .response 500 ∧
    routerHandle "s" "POST" "/webhook" (some ("sha256=" ++ hmacSha256Hex "s" "b")) "b"
      (some "issues") (some payloadNoLabel) = .thrown ∧
    routerHandleShipped "s" "POST" "/webhook" none "b" (some "issues")
      (some payloadNoLabel) = .thrown := by
  have h := c10_missing_label_crashes payloadNoLabel rfl rfl
  exact ⟨h.1, h.2.1 true true true "/webhook", h.2.2.1 true true true "sha256=x",
    h.2.2.2.1 "s" "b", h.2.2.2.2 "s" none "b"⟩

/-- When `git.createRef` is doomed to fail, every call the processor can
possibly attempt lies in the prefix up to `createRef` or in the catch
block. -/
theorem c6_trace_characterization (u : Upstream) (h : u.createRefOk = false) (x : Ev)
    (hx : x ∈ (processIssueRun u).trace) :
    x = .getIssue ∨ x = .addLabel "ai-processing" ∨ x = .getRepo ∨ x = .listCommits ∨
    x = .createRef ∨ x = .comment .errorReport ∨ x = .removeLabel "ai-processing" := by
  unfold processIssueRun at hx
  by_cases hA : authOkV1 u = true
  · rw [if_pos hA] at hx
    rcases mem_attempt hx with h1 | h1 | ⟨-, hx⟩
    · tauto
    · rcases mem_errTrace h1 with h2 | h2 <;> tauto
    rcases mem_attempt hx with h1 | h1 | ⟨-, hx⟩
    · tauto
    · rcases mem_errTrace h1 with h2 | h2 <;> tauto
    rcases mem_attempt hx with h1 | h1 | ⟨-, hx⟩
    · tauto
    · rcases mem_errTrace h1 with h2 | h2 <;> tauto
    rcases mem_attempt hx with h1 | h1 | ⟨-, hx⟩
    · tauto
    · rcases mem_errTrace h1 with h2 | h2 <;> tauto
    rcases mem_attempt hx with h1 | h1 | ⟨hk, -⟩
    · tauto
    · rcases mem_errTrace h1 with h2 | h2 <;> tauto
    · rw [h] at hk
      exact absurd hk (by decide)
  · rw [if_neg hA] at hx
    simp at hx

/-- C6: whenever the upstream `createRef` call fails, no blob, tree, commit
or pull-request creation is attempted in that delivery. -/
theorem c6_createRef_failure_stops_saga :
    ∀ u : Upstream, u.createRefOk = false →
      Ev.createBlob ∉ (processIssueRun u).trace ∧
      Ev.createTree ∉ (processIssueRun u).trace ∧
      Ev.createCommit ∉ (processIssueRun u).trace ∧
      Ev.createPR ∉ (processIssueRun u).trace := by
  intro u h
  refine ⟨?_, ?_, ?_, ?_⟩ <;> intro hx <;>
    rcases c6_trace_characterization u h _ hx with h1 | h1 | h1 | h1 | h1 | h1 | h1 <;>
    simp at h1

/-- C6 witness: the concrete environment failing only at `createRef`. -/
theorem c6_witness :
    envC6.createRefOk = false ∧
    Ev.createBlob ∉ (processIssueRun envC6).trace ∧
    Ev.createTree ∉ (processIssueRun envC6).trace ∧
    Ev.createCommit ∉ (processIssueRun envC6).trace ∧
    Ev.createPR ∉ (processIssueRun envC6).trace := by
  have h := c6_createRef_failure_stops_saga envC6 rfl
  exact ⟨rfl, h.1, h.2.1, h.2.2.1, h.2.2.2⟩

/-- C5: the claim says a failure in steps 2–4 makes the processor post a
comment describing the error and remove `ai-processing`.  In variant 1 —
the only variant whose steps 2–4 are reachable — the catch block cannot do
either: `octokit` is scoped to the try block, so the catch throws a
`ReferenceError` before any upstream call.  With `repos.get` failing, the
run attempts only the prefix up to `repos.get`: no error comment, no label
removal (and, as the claim does correctly state, no `ai-processed`). -/
theorem c5_error_cleanup_dead :
    failsInSteps2to4 envC5 = true ∧
    Ev.comment .errorReport ∉ (processIssueRun envC5).trace ∧
    Ev.removeLabel "ai-processing" ∉ (processIssueRun envC5).trace ∧
    Ev.addLabel "ai-processed" ∉ (processIssueRun envC5).trace ∧
    (processIssueRun envC5).trace = [.getIssue, .addLabel "ai-processing", .getRepo] := by
  decide

/-- C7: in an environment where every upstream call succeeds, a repository
whose workflow list contains the recognized automation workflow gets a
workflow dispatch and no placeholder commit and no pull request; a
repository without it gets exactly one placeholder commit and exactly one
pull request and no dispatch. -/
theorem c7_dispatch_or_placeholder :
    ∀ u : Upstream, nominal u = true →
      (u.workflows.any recognizedWorkflow = true →
        Ev.dispatchWorkflow ∈ (processIssueRun u).trace ∧
        (processIssueRun u).trace.count Ev.createCommit = 0 ∧
        (processIssueRun u).trace.count Ev.createPR = 0) ∧
      (u.workflows.any recognizedWorkflow = false →
        (processIssueRun u).trace.count Ev.createCommit = 1 ∧
        (processIssueRun u).trace.count Ev.createPR = 1 ∧
        Ev.dispatchWorkflow ∉ (processIssueRun u).trace) := by
  intro u hn
  cases u with
  | mk a1 a2 a3 a4 a5 a6 a7 a8 wfs a9 a10 a11 a12 a13 a14 a15 a16 a17 a18 a19 =>
    simp only [nominal, Bool.and_eq_true] at hn
    obtain ⟨⟨⟨⟨⟨⟨⟨⟨⟨⟨⟨⟨⟨⟨⟨⟨⟨⟨hb1, hb2⟩, hb3⟩, hb4⟩, hb5⟩, hb6⟩, hb7⟩, hb8⟩, hb9⟩,
      hb10⟩, hb11⟩, hb12⟩, hb13⟩, hb14⟩, hb15⟩, hb16⟩, hb17⟩, hb18⟩, hb19⟩ := hn
    subst hb1 hb2 hb3 hb4 hb5 hb6 hb7 hb8 hb9 hb10 hb11 hb12 hb13 hb14 hb15 hb16
    subst hb17 hb18 hb19
    constructor
    · intro hw
      simp [processIssueRun, authOkV1, attempt, always, dispatchSeq, hasWorkflow, hw]
    · intro hw
      simp [processIssueRun, authOkV1, attempt, always, placeholderSeq, hasWorkflow, hw,
        List.count_cons]

/-- C7 witness: the two concrete repositories — with and without the
recognized workflow — under the all-success environment. -/
theorem c7_witness :
    nominal envWorkflow = true ∧
    envWorkflow.workflows.any recognizedWorkflow = true ∧
    Ev.dispatchWorkflow ∈ (processIssueRun envWorkflow).trace ∧
    (processIssueRun envWorkflow).trace.count Ev.createCommit = 0 ∧
    (processIssueRun envWorkflow).trace.count Ev.createPR = 0 ∧
    nominal envBase = true ∧
    envBase.workflows.any recognizedWorkflow = false ∧
    (processIssueRun envBase).trace.count Ev.createCommit = 1 ∧
    (processIssueRun envBase).trace.count Ev.createPR = 1 ∧
    Ev.dispatchWorkflow ∉ (processIssueRun envBase).trace := by
  have hw := (c7_dispatch_or_placeholder envWorkflow (by decide)).1 (by decide)
  have hb := (c7_dispatch_or_placeholder envBase (by decide)).2 (by decide)
  exact ⟨by decide, by decide, hw.1, hw.2.1, hw.2.2, by decide, by decide,
    hb.1, hb.2.1, hb.2.2⟩

/-- C9 counterexample: the single-file entry point answers a `GET` to an
arbitrary path (here `/status`) with the 200 status page, where the claim
requires a not-found/method-not-allowed response for every path other than
`/` and `/webhook`. -/
theorem c9_counterexample_get_any_path :
    simpleFetch true true true "GET" "/status" none none = .response 200 ∧
    WorkerRes.response 200 ≠ .response 404 ∧
    WorkerRes.response 200 ≠ .response 405 := by
  decide

/-- C9 (amended): the variant-1 router maps `GET /` to 200 and every other
method/path pair outside its two routes to 404; `POST /webhook` answers 401
exactly when the signature header is absent, and rejects with no response
whenever the header is present (the verifier throws), so the in-code
202/200 dispatch branches are unreachable there.  The shipped router
variant, whose verifier is bypassed, answers 202 when processing is
dispatched, 200 for the no-op acknowledgement, and throws on a parse
failure or a missing label object — never 401.  The single-file variant
maps every `GET` (any path) to the 200 status page, every other non-POST
method to 405, and every `POST` (any path) to the webhook flow: 500 on a
processing error (parse failure, missing object, missing PAT), 200
otherwise — never 202 and never 404. -/
theorem c9_entrypoint_mapping :
    (∀ secret sig body e pl, routerHandle secret "GET" "/" sig body e pl = .response 200) ∧
    (∀ secret body e pl,
      routerHandle secret "POST" "/webhook" none body e pl = .response 401) ∧
    (∀ secret sig body e pl,
      routerHandle secret "POST" "/webhook" (some sig) body e pl = .thrown) ∧
    (∀ secret method path sig body e pl, ¬(method = "POST" ∧ path = "/webhook") →
      ¬(method = "GET" ∧ path = "/") →
      routerHandle secret method path sig body e pl = .response 404) ∧
    (∀ secret sig body e p, isProcessing (dispatchEvent e p) = true →
      routerHandleShipped secret "POST" "/webhook" sig body e (some p) = .response 202) ∧
    (∀ secret sig body e p a b, dispatchEvent e p = .ack a b →
      routerHandleShipped secret "POST" "/webhook" sig body e (some p) = .response 200) ∧
    (∀ secret sig body e,
      routerHandleShipped secret "POST" "/webhook" sig body e none = .thrown) ∧
    (∀ pat cOk lOk path e pl, simpleFetch pat cOk lOk "GET" path e pl = .response 200) ∧
    (∀ pat cOk lOk method path e pl, method ≠ "GET" → method ≠ "POST" →
      simpleFetch pat cOk lOk method path e pl = .response 405) ∧
    (∀ pat cOk lOk path e, simpleFetch pat cOk lOk "POST" path e none = .response 500) ∧
    (∀ cOk lOk path e p, p.label.isSome = true →
      simpleFetch false cOk lOk "POST" path e (some p) = .response 200 ∨
      simpleFetch false cOk lOk "POST" path e (some p) = .response 500) := by
  refine ⟨?_, ?_, ?_, ?_, ?_, ?_, ?_, ?_, ?_, ?_, ?_⟩
  · intro secret sig body e pl
    simp [routerHandle]
  · intro secret body e pl
    simp [routerHandle, verifyWebhookSignature]
  · intro secret sig body e pl
    simp [routerHandle, verifyWebhookSignature]
  · intro secret method path sig body e pl h1 h2
    have hx1 : (method == "POST" && path == "/webhook") = false := by
      rcases not_and_or.mp h1 with hx | hx <;> simp [hx]
    have hx2 : (method == "GET" && path == "/") = false := by
      rcases not_and_or.mp h2 with hx | hx <;> simp [hx]
    simp [routerHandle, hx1, hx2]
  · intro secret sig body e p hp
    cases hd : dispatchEvent e p with
    | processing n r => simp [routerHandleShipped, verifyWebhookSignatureShipped, hd]
    | ack a b => rw [hd] at hp; exact absurd hp (by simp [isProcessing])
    | typeError => rw [hd] at hp; exact absurd hp (by simp [isProcessing])
  · intro secret sig body e p a b hd
    simp [routerHandleShipped, verifyWebhookSignatureShipped, hd]
  · intro secret sig body e
    simp [routerHandleShipped, verifyWebhookSignatureShipped]
  · intro pat cOk lOk path e pl
    simp [simpleFetch]
  · intro pat cOk lOk method path e pl h1 h2
    simp [simpleFetch, h1, h2]
  · intro pat cOk lOk path e
    simp [simpleFetch]
  · intro cOk lOk path e p hl
    cases hlv : p.label with
    | none => rw [hlv] at hl; exact absurd hl (by simp)
    | some lbl =>
      by_cases he : e = some "issues"
      · by_cases ha : p.action = some "labeled"
        · by_cases hn : lbl.name = "aider-pro"
          · cases hi : p.issue with
            | none => right; simp [simpleFetch, he, ha, hlv, hn, hi]
            | some iss => right; simp [simpleFetch, he, ha, hlv, hn, hi]
          · left; simp [simpleFetch, he, ha, hlv, hn]
        · left; simp [simpleFetch, ha]
      · left; simp [simpleFetch, he]

/-- C9 witness: each mapping fact at a concrete request. -/
theorem c9_witness :
    routerHandle "s" "GET" "/" none "b" none none = .response 200 ∧
    routerHandle "s" "POST" "/webhook" none "b" none none = .response 401 ∧
    routerHandle "s" "POST" "/webhook" (some "sha256=x") "b" (some "issues")
      (some payloadTrigger) = .thrown ∧
    routerHandle "s" "PUT" "/x" none "b" none none = .response 404 ∧
    routerHandleShipped "s" "POST" "/webhook" none "b" (some "issues")
      (some payloadTrigger) = .response 202 ∧
    routerHandleShipped "s" "POST" "/webhook" none "b" (some "push")
      (some payloadTrigger) = .response 200 ∧
    routerHandleShipped "s" "POST" "/webhook" none "b" (some "issues") none = .thrown ∧
    simpleFetch true true true "GET" "/status" none none = .response 200 ∧
    simpleFetch true true true "PUT" "/webhook" none none = .response 405 ∧
    simpleFetch true true true "POST" "/webhook" none none = .response 500 ∧
    (simpleFetch false true true "POST" "/" (some "issues") (some payloadTrigger) =
        .response 200 ∨
      simpleFetch false true true "POST" "/" (some "issues") (some payloadTrigger) =
        .response 500) := by
  have h := c9_entrypoint_mapping
  exact ⟨h.1 "s" none "b" none none,
    h.2.1 "s" "b" none none,
    h.2.2.1 "s" "sha256=x" "b" (some "issues") (some payloadTrigger),
    h.2.2.2.1 "s" "PUT" "/x" none "b" none none (by simp) (by simp),
    h.2.2.2.2.1 "s" none "b" (some "issues") payloadTrigger (by decide),
    h.2.2.2.2.2.1 "s" none "b" (some "push") payloadTrigger (some "push") "labeled"
      (by decide),
    h.2.2.2.2.2.2.1 "s" none "b" (some "issues"),
    h.2.2.2.2.2.2.2.1 true true true "/status" none none,
    h.2.2.2.2.2.2.2.2.1 true true true "PUT" "/webhook" none none (by decide) (by decide),
    h.2.2.2.2.2.2.2.2.2.1 true true true "/webhook" none,
    h.2.2.2.2.2.2.2.2.2.2 true true "/" (some "issues") payloadTrigger (by decide)⟩

end AiderFixer
